import Mathlib

set_option autoImplicit false
set_option maxHeartbeats 1000000
set_option linter.unusedVariables false

/- Verification development for the Banquea WhatsApp quiz bot
   (src/app/routes.py): a shallow embedding of the webhook dispatcher,
   its per-user conversation state machine, and the webhook verification
   endpoint, together with theorems about their behaviour. -/

namespace BanqueaBot

/-! ## Python string primitives used by the dispatcher -/

/-- Python whitespace as stripped by `str.strip()`. -/
def isPySpace (c : Char) : Bool :=
  c = ' ' || c = '\t' || c = '\n' || c = '\r' || c = '\x0b' || c = '\x0c'

/-- Python `str.strip()` as used on message bodies: drop whitespace from
both ends. -/
def pyStrip (s : String) : String :=
  String.mk (((s.toList.dropWhile isPySpace).reverse.dropWhile isPySpace).reverse)

/-- Python `str.split(sep)` on a single-character separator, over the
character list. -/
def splitChar (sep : Char) : List Char → List (List Char)
  | [] => [[]]
  | c :: rest =>
    let r := splitChar sep rest
    if c = sep then [] :: r
    else
      match r with
      | [] => [[c]]
      | g :: gs => (c :: g) :: gs

/-- Python `str.split(sep)` for a single-character separator string. -/
def pySplit (s : String) (sep : Char) : List String :=
  (splitChar sep s.toList).map String.mk

/-- Validity of the digit tail of a Python integer literal after its first
digit: ASCII digits with single underscores allowed between digits
(`int("1_0")` parses, `int("1__0")` and `int("1_")` do not). -/
def pyDigitsRest : List Char → Bool
  | [] => true
  | c :: rest =>
    if c = '_' then
      match rest with
      | [] => false
      | d :: _ => d.isDigit && pyDigitsRest rest
    else c.isDigit && pyDigitsRest rest

/-- Validity of the digit part of a Python integer literal: nonempty, starts
with an ASCII digit, single underscores only between digits. -/
def pyDigitsOk (cs : List Char) : Bool :=
  match cs with
  | [] => false
  | c :: rest => c.isDigit && pyDigitsRest rest

/-- Numeric value of a digit sequence, skipping the underscore separators. -/
def digitsVal (cs : List Char) : Nat :=
  cs.foldl (fun acc c => if c.isDigit then acc * 10 + (c.toNat - '0'.toNat) else acc) 0

/-- Python `int(s)` on a string: optional surrounding whitespace, optional
sign, then an ASCII digit sequence; `none` models the `ValueError` raised on
anything else. (Non-ASCII decimal digits, which CPython also accepts, do not
occur in this bot's vocabulary and are not modelled.) -/
def pyIntParse (s : String) : Option Int :=
  match (pyStrip s).toList with
  | '+' :: rest => if pyDigitsOk rest then some (Int.ofNat (digitsVal rest)) else none
  | '-' :: rest => if pyDigitsOk rest then some (-(Int.ofNat (digitsVal rest))) else none
  | cs => if pyDigitsOk cs then some (Int.ofNat (digitsVal cs)) else none

/-- Python `str.lower()` restricted to the characters that occur in this
bot's comparisons: ASCII letters plus the accented Spanish capitals. -/
def pyLowerChar (c : Char) : Char :=
  if 'A' ≤ c ∧ c ≤ 'Z' then Char.ofNat (c.toNat + 32)
  else if c = 'Á' then 'á'
  else if c = 'É' then 'é'
  else if c = 'Í' then 'í'
  else if c = 'Ó' then 'ó'
  else if c = 'Ú' then 'ú'
  else if c = 'Ü' then 'ü'
  else if c = 'Ñ' then 'ñ'
  else c

/-- Python `str.lower()` on a string (see `pyLowerChar`). -/
def pyLower (s : String) : String := String.mk (s.toList.map pyLowerChar)

/-- Python `re.match(r'^\d+$', s)` as a Boolean, restricted to ASCII digits. -/
def isAllDigits (s : String) : Bool :=
  !s.toList.isEmpty && s.toList.all Char.isDigit

/-! ## Conversation state store (routes.py lines 24-87) -/

/-- The `temp_data` bag: a string-keyed mapping; the only value kind the bot
ever stores is the staged day index, so values are naturals. -/
abbrev TempData := List (String × Nat)

/-- Per-user conversation record, as stored in the `user_states` mapping. -/
structure ConversationState where
  state : Nat
  temp_data : TempData
deriving DecidableEq, Repr

/-- The in-memory `user_states` mapping from phone number to record. -/
abbrev StateMap := List (String × ConversationState)

/- The `STATES` table of routes.py lines 24-31. -/
namespace STATES

abbrev INITIAL : Nat := 0

abbrev AWAITING_CONFIRMATION : Nat := 1

abbrev AWAITING_DAY : Nat := 2

abbrev AWAITING_HOUR : Nat := 3

abbrev SUBSCRIBED : Nat := 4

abbrev AWAITING_QUESTION_RESPONSE : Nat := 5

end STATES

/-- Key lookup in an association list (Python `dict` access). -/
def lookupState (m : StateMap) (p : String) : Option ConversationState :=
  (m.find? (fun kv => kv.1 == p)).map (fun kv => kv.2)

/-- Key assignment in an association list (Python `dict` item assignment):
replaces the first binding of the key, or appends a new one. -/
def storeState (m : StateMap) (p : String) (v : ConversationState) : StateMap :=
  match m with
  | [] => [(p, v)]
  | kv :: rest => if kv.1 = p then (p, v) :: rest else kv :: storeState rest p v

/-- The `get_user_state` helper (routes.py lines 73-80): returns the stored
record, creating and storing the INITIAL default when the key is absent.
The second component is the mapping after the call. -/
def get_user_state (m : StateMap) (p : String) : ConversationState × StateMap :=
  match lookupState m p with
  | some cs => (cs, m)
  | none =>
    ({ state := STATES.INITIAL, temp_data := [] },
     storeState m p { state := STATES.INITIAL, temp_data := [] })

/-- The `set_user_state` helper (routes.py lines 82-87): replaces the full
record; `temp_data or set to empty` when the argument is omitted or falsy. -/
def set_user_state (m : StateMap) (p : String) (state : Nat)
    (temp_data : Option TempData) : StateMap :=
  storeState m p { state := state, temp_data := temp_data.getD [] }

/-- Value lookup in a `temp_data` bag (Python `dict.get(k)`). -/
def dictLookup (d : TempData) (k : String) : Option Nat :=
  (d.find? (fun kv => kv.1 == k)).map (fun kv => kv.2)

/-- Value lookup with default in a `temp_data` bag (Python `dict.get(k, v)`). -/
def dictGet (d : TempData) (k : String) (dflt : Nat) : Nat :=
  match dictLookup d k with
  | some v => v
  | none => dflt

/-- Item assignment in a `temp_data` bag (Python `d[k] = v`). -/
def dictSet (d : TempData) (k : String) (v : Nat) : TempData :=
  match d with
  | [] => [(k, v)]
  | kv :: rest => if kv.1 = k then (k, v) :: rest else kv :: dictSet rest k v

/-! ## User directory (spec section 3 and 6; crud.py is not under src) -/

/-- User record of the User Directory (spec section 3: phone number, active
flag, blacklist flag, preferred day/hour, last question id, last message
timestamp). Timestamps are abstract naturals. -/
structure User where
  id : Nat
  phone_number : String
  is_active : Bool
  is_blacklisted : Bool
  preferred_day : Option Nat
  preferred_hour : Option Nat
  last_question_id : Option Nat
  last_message_sent : Option Nat
deriving DecidableEq, Repr

/-- Modelled from the spec: User Directory `getByPhone` (crud.py is not under
src) — looks a user up by phone number. -/
def get_user_by_phone (users : List User) (phone : String) : Option User :=
  users.find? (fun u => u.phone_number == phone)

/-- Modelled from the spec: User Directory `getById` (crud.py is not under
src) — looks a user up by identifier. -/
def get_user_by_id (users : List User) (uid : Nat) : Option User :=
  users.find? (fun u => u.id == uid)

/-- Modelled from the spec: User Directory `create` (crud.py is not under
src) — creates an active, non-blacklisted user record on first contact, with
no preferences yet. -/
def create_user (uid : Nat) (phone : String) : User :=
  { id := uid, phone_number := phone, is_active := true, is_blacklisted := false,
    preferred_day := none, preferred_hour := none,
    last_question_id := none, last_message_sent := none }

/-- Modelled from the spec: User Directory `deactivate` (crud.py is not under
src) — soft-deactivates the user (clears the active flag, never deletes). -/
def deactivate_user (users : List User) (uid : Nat) : List User :=
  users.map (fun u => if u.id = uid then { u with is_active := false } else u)

/-- Modelled from the spec: User Directory `updatePreferences(day, hour)`
(crud.py is not under src) — stores the user's weekly delivery slot. -/
def update_user_preferences (users : List User) (uid : Nat) (day hour : Nat) :
    List User :=
  users.map (fun u =>
    if u.id = uid then { u with preferred_day := some day, preferred_hour := some hour }
    else u)

/-- The direct attribute writes of routes.py lines 826-829: record the
pending question and the send timestamp on the user row. -/
def record_last_question (users : List User) (uid : Nat) (qid : Nat) (now : Nat) :
    List User :=
  users.map (fun u =>
    if u.id = uid then { u with last_question_id := some qid, last_message_sent := some now }
    else u)

/-! ## Questions, outbound directives, and the dispatcher interface -/

/-- Quiz question (spec section 3); only the fields the dispatcher touches. -/
structure Question where
  id : Nat
  text : String
  options : List String
deriving DecidableEq, Repr

/-- Outbound message directives issued through the channel client. -/
inductive OutMessage where
  | text (body : String)
  | buttonPrompt (body header : String)
  | dayList (body : String)
  | questionList (qid : Nat) (text : String) (options : List String)
deriving DecidableEq, Repr

/-- Fire-and-forget background tasks scheduled by the dispatcher
(routes.py line 407); they run after the response is returned and are
recorded, not executed, here. -/
inductive BgTask where
  | sampleQuestion (phone : String)
deriving DecidableEq, Repr

/-- Response body shape of the webhook POST handler: a `status` field plus
the optional `message` and `error` fields the handler attaches. -/
structure ApiResponse where
  status : String
  message : Option String
  error : Option String
deriving DecidableEq, Repr

/-- The `interactive_data` of a normalized inbound message. -/
structure InteractiveData where
  reply_type : String
  id : String
  title : String
deriving DecidableEq, Repr

/-- Modelled from the spec: the normalized message produced by
`process_webhook_payload` (whatsapp.py is not under src). Spec section 3:
sender identifier, event kind, text body for free text, selection id and
title for button/list replies — so interactive events carry an empty body. -/
structure MessageData where
  from_number : String
  body : String
  message_type : String
  interactive_data : Option InteractiveData
deriving DecidableEq, Repr

/-- Results of the external collaborators consulted during one webhook
call: the Question Store's random draw, the channel client's send result
for the question list, and the grading collaborators of utils.py (not under
src), supplied as oracle functions returning (correctness, feedback). -/
structure Oracle where
  randomQuestion : Option Question
  sendListOk : Bool
  processResp : Nat → String → Bool × String
  processRespFromList : Nat → Int → Int → Bool × String

/-- Mutable state visible to one webhook call: the user directory rows, the
id counter for created users, and the in-memory conversation state map. -/
structure SysState where
  users : List User
  next_user_id : Nat
  user_states : StateMap
deriving DecidableEq, Repr

/-- A Python exception escaping to the outermost `try` of the handler,
together with the side effects (directory and state mutations, messages
already sent) performed before the raise. -/
structure PyRaise where
  msg : String
  sys : SysState
  sent : List OutMessage
deriving DecidableEq, Repr

/-- Complete observable outcome of one webhook POST call. -/
structure WebhookOutcome where
  response : ApiResponse
  sent : List OutMessage
  bg : List BgTask
  sys : SysState
deriving DecidableEq, Repr

/-! ## Day vocabulary (routes.py lines 276, 357-360, 397, 796-799) -/

/-- The day-name list used for confirmation messages (lines 276 and 397). -/
def days : List String :=
  ["lunes", "martes", "miércoles", "jueves", "viernes", "sábado", "domingo"]

/-- The `day_map` of routes.py lines 357-360 and 796-799: canonical Spanish
day names (with unaccented variants for miércoles and sábado) to 0-6. -/
def day_map (s : String) : Option Nat :=
  if s = "lunes" then some 0
  else if s = "martes" then some 1
  else if s = "miércoles" then some 2
  else if s = "miercoles" then some 2
  else if s = "jueves" then some 3
  else if s = "viernes" then some 4
  else if s = "sábado" then some 5
  else if s = "sabado" then some 5
  else if s = "domingo" then some 6
  else none

/-! ## The dispatcher (routes.py lines 136-450 and 782-850) -/

/-- Result of `handle_day_selection`: its Boolean return value plus the
side effects it performed. -/
structure HandleDayResult where
  ok : Bool
  users : List User
  states : StateMap
  sent : List OutMessage

/-- The `handle_day_selection` helper (routes.py lines 782-850): resolve the
selected day title, persist preferences with hour defaulting to 9, record a
random question as pending and send it as a selectable list; any failure is
caught inside the helper and yields `ok := false` with no state change. -/
def handle_day_selection (phone day_id day_title : String) (user_id : Nat)
    (users : List User) (states : StateMap) (oracle : Oracle) (now : Nat) :
    HandleDayResult :=
  match day_map (pyLower day_title) with
  | none =>
    { ok := false, users := users, states := states,
      sent := [OutMessage.text "Lo siento, hubo un error con tu selección. Por favor intenta de nuevo."] }
  | some day_value =>
    let users1 := update_user_preferences users user_id day_value 9
    match oracle.randomQuestion with
    | none =>
      { ok := false, users := users1, states := states,
        sent := [OutMessage.text "Lo sentimos, no pudimos encontrar preguntas disponibles. Por favor intenta más tarde."] }
    | some q =>
      match get_user_by_id users1 user_id with
      | none => { ok := false, users := users1, states := states, sent := [] }
      | some _ =>
        let users2 := record_last_question users1 user_id q.id now
        if oracle.sendListOk then
          { ok := true, users := users2,
            states := set_user_state states phone STATES.AWAITING_QUESTION_RESPONSE none,
            sent := [OutMessage.questionList q.id q.text q.options] }
        else
          { ok := false, users := users2, states := states,
            sent := [OutMessage.questionList q.id q.text q.options] }

/-- The list-reply answer branch for AWAITING_QUESTION_RESPONSE
(routes.py lines 259-292): parse `q_{qid}_opt_{n}` from the selection id,
grade, and confirm; its inner `try` converts any failure into an apology
message and an error-status response (with the text under the `error` key). -/
def answer_caught (e : String) (sys : SysState) : WebhookOutcome :=
  { response := { status := "error", message := none, error := some e },
    sent := [OutMessage.text "Lo sentimos, hubo un error al procesar tu respuesta. Por favor intenta de nuevo."],
    bg := [], sys := sys }

/-- The list-reply answer branch for AWAITING_QUESTION_RESPONSE
(routes.py lines 259-292): parse the question id and option number from the
selection id of shape q underscore id underscore opt underscore n, grade, and
confirm; its inner `try` converts any failure into an apology message plus an
error-status response (`answer_caught`, with the text under the `error` key). -/
def answer_list_reply (phone option_id : String) (user : User)
    (sys : SysState) (oracle : Oracle) : WebhookOutcome :=
  let parts := pySplit option_id '_'
  match parts[1]? with
  | none => answer_caught "list index out of range" sys
  | some p1 =>
    match pyIntParse p1 with
    | none => answer_caught "invalid literal for int() with base 10" sys
    | some question_id =>
      match parts[3]? with
      | none => answer_caught "list index out of range" sys
      | some p3 =>
        match pyIntParse p3 with
        | none => answer_caught "invalid literal for int() with base 10" sys
        | some option_num =>
          match user.preferred_day with
          | none => answer_caught "list indices must be integers or slices, not NoneType" sys
          | some d =>
            match days[d]? with
            | none => answer_caught "list index out of range" sys
            | some day_name =>
              { response := { status := "success", message := none, error := none },
                sent := [OutMessage.text ((oracle.processRespFromList user.id question_id option_num).2 ++ "\n\nRecibirás la próxima pregunta el " ++ day_name ++ " de la próxima semana.")],
                bg := [],
                sys := { sys with user_states := set_user_state sys.user_states phone STATES.SUBSCRIBED none } }

/-- The free-text state machine of routes.py lines 294-446, entered with the
state and temp data captured before the interactive block, the pending
`response_message` (set by the no-button branch), and the messages already
sent. Mirrors the source branch for branch, including the final
`if response_message:` send. The only uncaught raise site is the
`days[preferred_day]` indexing of line 398. -/
def text_flow (phone body : String) (current_state : Nat) (temp_data : TempData)
    (user_id : Nat) (rm0 : String) (sys : SysState) (sent0 : List OutMessage)
    (oracle : Oracle) : Except PyRaise WebhookOutcome :=
  let finish : String → SysState → List BgTask → Except PyRaise WebhookOutcome :=
    fun rm sys1 bg =>
      Except.ok
        { response := { status := "success", message := none, error := none },
          sent := if rm = "" then sent0 else sent0 ++ [OutMessage.text rm],
          bg := bg, sys := sys1 }
  if current_state = STATES.INITIAL then
    Except.ok
      { response := { status := "success", message := none, error := none },
        sent := sent0 ++ [OutMessage.buttonPrompt "Bienvenido/a al bot de preguntas médicas de Banquea. Este bot te enviará preguntas semanales para reforzar tus conocimientos médicos. ¿Deseas recibir preguntas semanales?" "Configuración de suscripción"],
        bg := [],
        sys := { sys with user_states := set_user_state sys.user_states phone STATES.AWAITING_CONFIRMATION none } }
  else if current_state = STATES.AWAITING_CONFIRMATION then
    if (["si", "sí", "yes", "y"] : List String).contains (pyLower body) then
      Except.ok
        { response := { status := "success", message := none, error := none },
          sent := sent0 ++ [OutMessage.dayList "Por favor selecciona el día de la semana en que deseas recibir las preguntas:"],
          bg := [],
          sys := { sys with user_states := set_user_state sys.user_states phone STATES.AWAITING_DAY none } }
    else if (["no", "n"] : List String).contains (pyLower body) then
      finish "Entendido. No recibirás preguntas semanales. Si cambias de opinión, escribe INICIAR."
        { sys with users := deactivate_user sys.users user_id,
                   user_states := set_user_state sys.user_states phone STATES.INITIAL none } []
    else
      finish "No entendí tu respuesta. Por favor responde SI o NO, o usa los botones enviados." sys []
  else if current_state = STATES.AWAITING_DAY then
    match pyIntParse (pyStrip body) with
    | some day =>
      if 1 ≤ day ∧ day ≤ 7 then
        finish ("Has seleccionado el día " ++ toString day ++ ". ¿A qué hora prefieres recibir las preguntas? Responde con un número del 0 al 23 (formato 24 horas).")
          { sys with user_states := (set_user_state sys.user_states phone STATES.AWAITING_HOUR (some (dictSet temp_data "preferred_day" (day - 1).toNat))) } []
      else
        finish "Por favor, elige un número del 1 al 7, donde 1 es lunes y 7 es domingo." sys []
    | none =>
      match day_map (pyLower body) with
      | some day_value =>
        finish ("Has seleccionado " ++ body ++ ". ¿A qué hora prefieres recibir las preguntas? Responde con un número del 0 al 23 (formato 24 horas).")
          { sys with user_states := (set_user_state sys.user_states phone STATES.AWAITING_HOUR (some (dictSet temp_data "preferred_day" day_value))) } []
      | none =>
        Except.ok
          { response := { status := "success", message := none, error := none },
            sent := sent0 ++ [OutMessage.dayList "No pude entender tu selección. Por favor, selecciona un día de la semana:"],
            bg := [], sys := sys }
  else if current_state = STATES.AWAITING_HOUR then
    match pyIntParse (pyStrip body) with
    | some hour =>
      if 0 ≤ hour ∧ hour ≤ 23 then
        match days[dictGet temp_data "preferred_day" 0]? with
        | none =>
          Except.error
            { msg := "list index out of range",
              sys := { sys with users := update_user_preferences sys.users user_id (dictGet temp_data "preferred_day" 0) hour.toNat },
              sent := sent0 }
        | some day_name =>
          finish ("¡Perfecto! Recibirás preguntas médicas cada " ++ day_name ++ " a las " ++ toString hour ++ ":00 horas. Para dejar de recibir preguntas, escribe DETENER en cualquier momento.")
            { sys with users := update_user_preferences sys.users user_id (dictGet temp_data "preferred_day" 0) hour.toNat,
                       user_states := set_user_state sys.user_states phone STATES.SUBSCRIBED none }
            [BgTask.sampleQuestion phone]
      else
        finish "Por favor, elige un número del 0 al 23." sys []
    | none =>
      finish "Por favor, responde con un número del 0 al 23." sys []
  else if current_state = STATES.SUBSCRIBED ∨ current_state = STATES.AWAITING_QUESTION_RESPONSE then
    if (["detener", "stop", "unsubscribe"] : List String).contains (pyLower body) then
      finish "Has cancelado tu suscripción. Ya no recibirás preguntas médicas. Para volver a suscribirte, escribe INICIAR."
        { sys with users := deactivate_user sys.users user_id,
                   user_states := set_user_state sys.user_states phone STATES.INITIAL none } []
    else if (["iniciar", "start", "subscribe"] : List String).contains (pyLower body) then
      Except.ok
        { response := { status := "success", message := none, error := none },
          sent := sent0 ++ [OutMessage.buttonPrompt "¿Deseas recibir preguntas médicas semanales para reforzar tus conocimientos?" "Configuración de suscripción"],
          bg := [],
          sys := { sys with user_states := set_user_state sys.user_states phone STATES.AWAITING_CONFIRMATION none } }
    else if isAllDigits (pyStrip body) ∧ current_state = STATES.AWAITING_QUESTION_RESPONSE then
      finish (oracle.processResp user_id body).2
        { sys with user_states := set_user_state sys.user_states phone STATES.SUBSCRIBED none } []
    else
      finish "Recuerda que puedes utilizar estos comandos:\nDETENER - para dejar de recibir preguntas\nINICIAR - para configurar de nuevo tus preferencias" sys []
  else
    finish rm0 sys []

/-- Body of the webhook POST handler inside its outermost `try`
(routes.py lines 154-446): tolerate unprocessable payloads, get or create
the user, load the conversation state, run the interactive block (which may
fall through into the free-text state machine), and return the response. -/
def webhook_body (sys : SysState) (msg : Option MessageData) (oracle : Oracle)
    (now : Nat) : Except PyRaise WebhookOutcome :=
  match msg with
  | none =>
    Except.ok
      { response := { status := "success", message := some "No processable messages", error := none },
        sent := [], bg := [], sys := sys }
  | some md =>
    if md.from_number = "" then
      Except.ok
        { response := { status := "success", message := some "Incomplete message data", error := none },
          sent := [], bg := [], sys := sys }
    else
      let phone := md.from_number
      let found :=
        match get_user_by_phone sys.users phone with
        | some u => (u, sys)
        | none =>
          (create_user sys.next_user_id phone,
           { sys with users := sys.users ++ [create_user sys.next_user_id phone],
                      next_user_id := sys.next_user_id + 1 })
      let user := found.1
      let got := get_user_state found.2.user_states phone
      let user_state := got.1
      let sys2 := { found.2 with user_states := got.2 }
      let current_state := user_state.state
      match md.interactive_data with
      | some idata =>
        if md.message_type = "interactive" then
          if idata.reply_type = "button_reply" then
            if idata.id = "yes_button" then
              Except.ok
                { response := { status := "success", message := none, error := none },
                  sent := [OutMessage.dayList "Por favor selecciona el día de la semana en que deseas recibir las preguntas:"],
                  bg := [],
                  sys := { sys2 with user_states := set_user_state sys2.user_states phone STATES.AWAITING_DAY none } }
            else if idata.id = "no_button" then
              text_flow phone md.body current_state user_state.temp_data user.id
                "Entendido. Si cambias de opinión, escribe INICIAR en cualquier momento."
                { sys2 with users := deactivate_user sys2.users user.id,
                            user_states := set_user_state sys2.user_states phone STATES.INITIAL none }
                [] oracle
            else
              text_flow phone md.body current_state user_state.temp_data user.id "" sys2 [] oracle
          else if idata.reply_type = "list_reply" then
            if current_state = STATES.AWAITING_DAY then
              let r := handle_day_selection phone idata.id idata.title user.id sys2.users sys2.user_states oracle now
              if r.ok then
                Except.ok
                  { response := { status := "success", message := none, error := none },
                    sent := r.sent, bg := [],
                    sys := { sys2 with users := r.users, user_states := r.states } }
              else
                text_flow phone md.body current_state user_state.temp_data user.id ""
                  { sys2 with users := r.users, user_states := r.states } r.sent oracle
            else if current_state = STATES.AWAITING_QUESTION_RESPONSE then
              Except.ok (answer_list_reply phone idata.id user sys2 oracle)
            else
              text_flow phone md.body current_state user_state.temp_data user.id "" sys2 [] oracle
          else
            text_flow phone md.body current_state user_state.temp_data user.id "" sys2 [] oracle
        else
          text_flow phone md.body current_state user_state.temp_data user.id "" sys2 [] oracle
      | none =>
        text_flow phone md.body current_state user_state.temp_data user.id "" sys2 [] oracle

/-- The webhook POST handler (routes.py lines 136-450): the outermost
`try`/`except` converts any uncaught failure into the in-band error shape
with the HTTP layer still returning 200. -/
def whatsapp_webhook (sys : SysState) (msg : Option MessageData) (oracle : Oracle)
    (now : Nat) : WebhookOutcome :=
  match webhook_body sys msg oracle now with
  | Except.ok o => o
  | Except.error r =>
    { response := { status := "error", message := some r.msg, error := none },
      sent := r.sent, bg := [], sys := r.sys }

/-- A webhook call carrying a plain text message. -/
def runText (sys : SysState) (oracle : Oracle) (now : Nat) (phone body : String) :
    WebhookOutcome :=
  whatsapp_webhook sys
    (some { from_number := phone, body := body, message_type := "text", interactive_data := none })
    oracle now

/-- A webhook call carrying a button reply (interactive events carry an
empty body; see `MessageData`). -/
def runButton (sys : SysState) (oracle : Oracle) (now : Nat) (phone bid title : String) :
    WebhookOutcome :=
  whatsapp_webhook sys
    (some { from_number := phone, body := "", message_type := "interactive",
            interactive_data := some { reply_type := "button_reply", id := bid, title := title } })
    oracle now

/-- A webhook call carrying a list-selection reply. -/
def runListReply (sys : SysState) (oracle : Oracle) (now : Nat) (phone rid title : String) :
    WebhookOutcome :=
  whatsapp_webhook sys
    (some { from_number := phone, body := "", message_type := "interactive",
            interactive_data := some { reply_type := "list_reply", id := rid, title := title } })
    oracle now

/-! ## Webhook verification (routes.py lines 105-134) -/

/-- The fallback verify token of routes.py line 122. -/
def default_verify_token : String := "banquea_medical_bot_verify_token"

/-- Python truthiness of an optional query parameter: present and nonempty. -/
def truthyOpt (o : Option String) : Bool :=
  match o with
  | some s => !(s == "")
  | none => false

/-- The webhook verification GET handler (routes.py lines 105-134):
`Except.error` carries the HTTP status of a raised `HTTPException` (400 for
missing parameters, 403 for a failed check) or of an uncaught conversion
failure in `int(challenge)` (500); `Except.ok` is the integer challenge
echoed with HTTP 200. -/
def verify_webhook (mode token challenge env : Option String) : Except Nat Int :=
  if truthyOpt mode && truthyOpt token then
    if mode == some "subscribe" && token == some (env.getD default_verify_token) then
      match challenge with
      | none => Except.error 500
      | some c =>
        match pyIntParse c with
        | some n => Except.ok n
        | none => Except.error 500
    else Except.error 403
  else Except.error 400

/-! ## Concrete fixtures for the checks -/

/-- A fixed collaborator environment for concrete checks (no question in
the store, sends succeed, grading returns a fixed feedback). -/
def chkOracle : Oracle :=
  { randomQuestion := none, sendListOk := true,
    processResp := fun _ _ => (true, "ok"), processRespFromList := fun _ _ _ => (true, "ok") }

/-- A fixed collaborator environment whose question store holds one
question, for concrete checks of the question-sending paths. -/
def chkOracleQ : Oracle :=
  { randomQuestion := some { id := 7, text := "q?", options := ["a", "b"] },
    sendListOk := true,
    processResp := fun _ _ => (true, "ok"), processRespFromList := fun _ _ _ => (true, "ok") }

/-- A one-user system fixture with the user "51999" in the given
conversation state, for concrete checks. -/
def chkSys (s : Nat) (td : TempData) : SysState :=
  { users := [create_user 0 "51999"], next_user_id := 1,
    user_states := [("51999", { state := s, temp_data := td })] }

/-- The free-text inputs that trigger a state-specific action of the
transition table (confirmations, day numbers and names, in-range hours,
commands, digit answers); everything else falls to that state's
reminder/clarification fallback. Mirrors the branch conditions of
`text_flow`. -/
def recognized_text (state : Nat) (body : String) : Bool :=
  match state with
  | 1 =>
    (["si", "sí", "yes", "y"] : List String).contains (pyLower body) ||
    (["no", "n"] : List String).contains (pyLower body)
  | 2 =>
    (match pyIntParse (pyStrip body) with
     | some d => decide (1 ≤ d ∧ d ≤ 7)
     | none => (day_map (pyLower body)).isSome)
  | 3 =>
    (match pyIntParse (pyStrip body) with
     | some h => decide (0 ≤ h ∧ h ≤ 23)
     | none => false)
  | 4 =>
    (["detener", "stop", "unsubscribe"] : List String).contains (pyLower body) ||
    (["iniciar", "start", "subscribe"] : List String).contains (pyLower body)
  | 5 =>
    (["detener", "stop", "unsubscribe"] : List String).contains (pyLower body) ||
    (["iniciar", "start", "subscribe"] : List String).contains (pyLower body) ||
    isAllDigits (pyStrip body)
  | _ => false

/-! ## Basic lemmas about the state store -/

theorem lookupState_store_self (m : StateMap) (p : String) (v : ConversationState) :
    lookupState (storeState m p v) p = some v := by
  induction m with
  | nil => simp [storeState, lookupState, List.find?]
  | cons kv rest ih =>
    unfold storeState
    by_cases h : kv.1 = p
    · simp [lookupState, List.find?, h]
    · rw [if_neg h]
      rw [lookupState] at ih ⊢
      simp only [List.find?]
      have hb : (kv.1 == p) = false := by simp [h]
      rw [hb]
      exact ih

theorem dictGet_of_lookup_none (d : TempData) (k : String) (dflt : Nat)
    (h : dictLookup d k = none) : dictGet d k dflt = dflt := by
  unfold dictGet
  rw [h]

/-! ## Claim C8: the conversation state store contract -/

/-- Claim C8: `get_user_state` on an absent identifier creates and returns
the default INITIAL record with empty temp data; `set_user_state` replaces
the full record with temp data defaulting to empty when omitted, so a get
immediately after a set returns exactly the record just set (with the
mapping untouched by the get). -/
theorem state_store_contract (m : StateMap) (p : String) (s : Nat) (t : Option TempData) :
    (lookupState m p = none →
      get_user_state m p =
        ({ state := STATES.INITIAL, temp_data := [] },
         storeState m p { state := STATES.INITIAL, temp_data := [] })) ∧
    get_user_state (set_user_state m p s t) p =
      ({ state := s, temp_data := t.getD [] }, set_user_state m p s t) := by
  constructor
  · intro h
    unfold get_user_state
    rw [h]
  · unfold get_user_state set_user_state
    rw [lookupState_store_self]

/-- Check of `state_store_contract` at concrete inputs: a set-then-get round
trip through the store, and a get on an absent key. -/
theorem state_store_contract_check :
    get_user_state (set_user_state [] "51999" STATES.SUBSCRIBED (some [("preferred_day", 2)])) "51999" =
      ({ state := STATES.SUBSCRIBED, temp_data := [("preferred_day", 2)] },
       set_user_state [] "51999" STATES.SUBSCRIBED (some [("preferred_day", 2)])) ∧
    get_user_state ([] : StateMap) "51999" =
      ({ state := STATES.INITIAL, temp_data := [] },
       storeState [] "51999" { state := STATES.INITIAL, temp_data := [] }) :=
  ⟨(state_store_contract [] "51999" STATES.SUBSCRIBED (some [("preferred_day", 2)])).2,
   (state_store_contract [] "51999" 4 none).1 rfl⟩

/-! ## Claim C6: webhook verification -/

/-- Claim C6 is false as stated: with the mode parameter present (but not
equal to "subscribe") and the verify token present and matching, the handler
raises HTTP 403 instead of returning the challenge 42. -/
theorem verify_webhook_mode_counterexample :
    verify_webhook (some "unsubscribe") (some "banquea_medical_bot_verify_token") (some "42") none
      = Except.error 403 := rfl

/-- Claim C6 (amended): the GET verification handler returns the challenge
as an integer only when the mode parameter equals "subscribe" and the token
matches the configured verify token (and the challenge parses as an
integer); it raises HTTP 400 when the mode or token parameter is missing or
empty, and HTTP 403 when both are present but the mode is not "subscribe"
or the token does not match. -/
theorem verify_webhook_behaviour (mode token challenge env : Option String) :
    ((truthyOpt mode && truthyOpt token) = false →
      verify_webhook mode token challenge env = Except.error 400) ∧
    ((truthyOpt mode && truthyOpt token) = true →
      ¬(mode = some "subscribe" ∧ token = some (env.getD default_verify_token)) →
      verify_webhook mode token challenge env = Except.error 403) ∧
    (∀ c n, mode = some "subscribe" → token = some (env.getD default_verify_token) →
      truthyOpt token = true → challenge = some c → pyIntParse c = some n →
      verify_webhook mode token challenge env = Except.ok n) := by
  refine ⟨fun h => ?_, fun h hne => ?_, fun c n hm ht htt hc hp => ?_⟩
  · simp [verify_webhook, h]
  · have hb : (mode == some "subscribe" && token == some (env.getD default_verify_token)) = false := by
      rw [Bool.and_eq_false_iff]
      by_cases hm : mode = some "subscribe"
      · right
        have htk : ¬token = some (env.getD default_verify_token) := fun htk => hne ⟨hm, htk⟩
        simpa using htk
      · left
        simpa using hm
    simp [verify_webhook, h, hb]
  · subst hm ht hc
    have hs : ¬(env.getD default_verify_token = "") := by
      intro he
      rw [he] at htt
      simp [truthyOpt] at htt
    simp [verify_webhook, truthyOpt, hp, hs]

/-! ## Claim C7: the dispatcher reports failures in-band -/

theorem text_flow_ok_response (phone body : String) (cs : Nat) (td : TempData)
    (uid : Nat) (rm0 : String) (sys : SysState) (sent0 : List OutMessage)
    (oracle : Oracle) (o : WebhookOutcome)
    (h : text_flow phone body cs td uid rm0 sys sent0 oracle = Except.ok o) :
    o.response = { status := "success", message := none, error := none } := by
  simp only [text_flow] at h
  repeat' split at h
  all_goals first
    | exact Except.noConfusion h
    | (injection h with h2; subst h2; rfl)

theorem answer_list_reply_response (phone oid : String) (u : User) (sys : SysState)
    (oracle : Oracle) :
    (answer_list_reply phone oid u sys oracle).response.status = "success" ∨
    ((answer_list_reply phone oid u sys oracle).response.status = "error" ∧
      (answer_list_reply phone oid u sys oracle).response.error.isSome) := by
  rcases hp1 : (pySplit oid '_')[1]? with _ | p1
  · simp [answer_list_reply, answer_caught, hp1]
  · rcases hq1 : pyIntParse p1 with _ | qid
    · simp [answer_list_reply, answer_caught, hp1, hq1]
    · rcases hp3 : (pySplit oid '_')[3]? with _ | p3
      · simp [answer_list_reply, answer_caught, hp1, hq1, hp3]
      · rcases hq3 : pyIntParse p3 with _ | optn
        · simp [answer_list_reply, answer_caught, hp1, hq1, hp3, hq3]
        · rcases hd : u.preferred_day with _ | d
          · simp [answer_list_reply, answer_caught, hp1, hq1, hp3, hq3, hd]
          · rcases hn : days[d]? with _ | nm
            · simp [answer_list_reply, answer_caught, hp1, hq1, hp3, hq3, hd, hn]
            · simp [answer_list_reply, answer_caught, hp1, hq1, hp3, hq3, hd, hn]

theorem webhook_body_ok_status (sys : SysState) (msg : Option MessageData)
    (oracle : Oracle) (now : Nat) (o : WebhookOutcome)
    (h : webhook_body sys msg oracle now = Except.ok o) :
    o.response.status = "success" ∨
      (o.response.status = "error" ∧ o.response.error.isSome) := by
  simp only [webhook_body] at h
  repeat' split at h
  all_goals first
    | exact Except.noConfusion h
    | (left; rw [text_flow_ok_response _ _ _ _ _ _ _ _ _ _ h])
    | (injection h with h2; subst h2;
        first
          | (left; rfl)
          | exact answer_list_reply_response _ _ _ _ _)

/-- Claim C7: the POST handler is total and reports failures in-band — any
uncaught failure of the handler body is converted by the outermost
`try`/`except` into the error shape with status "error" and the exception
text under `message`, still returned as a value (HTTP 200); every other
outcome carries status "success", or status "error" with the text under the
inner branch's `error` key — never an escaping exception. -/
theorem webhook_errors_in_band (sys : SysState) (msg : Option MessageData)
    (oracle : Oracle) (now : Nat) :
    (∀ r, webhook_body sys msg oracle now = Except.error r →
      whatsapp_webhook sys msg oracle now =
        { response := { status := "error", message := some r.msg, error := none },
          sent := r.sent, bg := [], sys := r.sys }) ∧
    ((whatsapp_webhook sys msg oracle now).response.status = "success" ∨
      ((whatsapp_webhook sys msg oracle now).response.status = "error" ∧
        ((whatsapp_webhook sys msg oracle now).response.message.isSome ∨
         (whatsapp_webhook sys msg oracle now).response.error.isSome))) := by
  constructor
  · intro r hr
    unfold whatsapp_webhook
    rw [hr]
  · cases hw : webhook_body sys msg oracle now with
    | ok o =>
      have hww : whatsapp_webhook sys msg oracle now = o := by
        unfold whatsapp_webhook
        rw [hw]
      rw [hww]
      exact (webhook_body_ok_status sys msg oracle now o hw).imp id (fun hp => ⟨hp.1, Or.inr hp.2⟩)
    | error r =>
      have hww : whatsapp_webhook sys msg oracle now =
          { response := { status := "error", message := some r.msg, error := none },
            sent := r.sent, bg := [], sys := r.sys } := by
        unfold whatsapp_webhook
        rw [hw]
      rw [hww]
      exact Or.inr ⟨rfl, Or.inl rfl⟩

/-- Check of `webhook_errors_in_band` at a concrete input on which the body
raises (a staged day index of 99 makes line 398's `days` indexing fail): the
call still returns the in-band error shape. -/
theorem webhook_errors_in_band_check :
    (whatsapp_webhook
      { users := [create_user 0 "51999"], next_user_id := 1,
        user_states := [("51999", { state := 3, temp_data := [("preferred_day", 99)] })] }
      (some { from_number := "51999", body := "5", message_type := "text", interactive_data := none })
      { randomQuestion := none, sendListOk := true,
        processResp := fun _ _ => (true, "ok"), processRespFromList := fun _ _ _ => (true, "ok") }
      0).response =
      { status := "error", message := some "list index out of range", error := none } := by
  have h := (webhook_errors_in_band
      { users := [create_user 0 "51999"], next_user_id := 1,
        user_states := [("51999", { state := 3, temp_data := [("preferred_day", 99)] })] }
      (some { from_number := "51999", body := "5", message_type := "text", interactive_data := none })
      { randomQuestion := none, sendListOk := true,
        processResp := fun _ _ => (true, "ok"), processRespFromList := fun _ _ _ => (true, "ok") }
      0).1
    { msg := "list index out of range",
      sys := { users := [{ id := 0, phone_number := "51999", is_active := true,
                           is_blacklisted := false, preferred_day := some 99,
                           preferred_hour := some 5, last_question_id := none,
                           last_message_sent := none }],
               next_user_id := 1,
               user_states := [("51999", { state := 3, temp_data := [("preferred_day", 99)] })] },
      sent := [] }
    rfl
  rw [h]

/-! ## Branch lemmas for the free-text state machine -/

theorem text_flow_initial (phone body : String) (td : TempData) (uid : Nat)
    (rm0 : String) (sys : SysState) (sent0 : List OutMessage) (oracle : Oracle) :
    text_flow phone body STATES.INITIAL td uid rm0 sys sent0 oracle =
      Except.ok
        { response := { status := "success", message := none, error := none },
          sent := sent0 ++ [OutMessage.buttonPrompt "Bienvenido/a al bot de preguntas médicas de Banquea. Este bot te enviará preguntas semanales para reforzar tus conocimientos médicos. ¿Deseas recibir preguntas semanales?" "Configuración de suscripción"],
          bg := [],
          sys := { sys with user_states := set_user_state sys.user_states phone STATES.AWAITING_CONFIRMATION none } } := by
  simp only [text_flow]
  simp [STATES.INITIAL]

theorem text_flow_conf_yes (phone body : String) (td : TempData) (uid : Nat)
    (rm0 : String) (sys : SysState) (sent0 : List OutMessage) (oracle : Oracle)
    (hyes : (["si", "sí", "yes", "y"] : List String).contains (pyLower body) = true) :
    text_flow phone body STATES.AWAITING_CONFIRMATION td uid rm0 sys sent0 oracle =
      Except.ok
        { response := { status := "success", message := none, error := none },
          sent := sent0 ++ [OutMessage.dayList "Por favor selecciona el día de la semana en que deseas recibir las preguntas:"],
          bg := [],
          sys := { sys with user_states := set_user_state sys.user_states phone STATES.AWAITING_DAY none } } := by
  simp only [text_flow, hyes]
  simp [STATES.INITIAL, STATES.AWAITING_CONFIRMATION]

theorem text_flow_conf_no (phone body : String) (td : TempData) (uid : Nat)
    (rm0 : String) (sys : SysState) (sent0 : List OutMessage) (oracle : Oracle)
    (hyes : (["si", "sí", "yes", "y"] : List String).contains (pyLower body) = false)
    (hno : (["no", "n"] : List String).contains (pyLower body) = true) :
    text_flow phone body STATES.AWAITING_CONFIRMATION td uid rm0 sys sent0 oracle =
      Except.ok
        { response := { status := "success", message := none, error := none },
          sent := sent0 ++ [OutMessage.text "Entendido. No recibirás preguntas semanales. Si cambias de opinión, escribe INICIAR."],
          bg := [],
          sys := { sys with
                   users := deactivate_user sys.users uid,
                   user_states := set_user_state sys.user_states phone STATES.INITIAL none } } := by
  simp only [text_flow, hyes, hno]
  simp [STATES.INITIAL, STATES.AWAITING_CONFIRMATION]

theorem text_flow_conf_other (phone body : String) (td : TempData) (uid : Nat)
    (rm0 : String) (sys : SysState) (sent0 : List OutMessage) (oracle : Oracle)
    (hyes : (["si", "sí", "yes", "y"] : List String).contains (pyLower body) = false)
    (hno : (["no", "n"] : List String).contains (pyLower body) = false) :
    text_flow phone body STATES.AWAITING_CONFIRMATION td uid rm0 sys sent0 oracle =
      Except.ok
        { response := { status := "success", message := none, error := none },
          sent := sent0 ++ [OutMessage.text "No entendí tu respuesta. Por favor responde SI o NO, o usa los botones enviados."],
          bg := [], sys := sys } := by
  simp only [text_flow, hyes, hno]
  simp [STATES.INITIAL, STATES.AWAITING_CONFIRMATION]

theorem text_flow_day_int (phone body : String) (td : TempData) (uid : Nat)
    (rm0 : String) (sys : SysState) (sent0 : List OutMessage) (oracle : Oracle)
    (d : Int) (hd : pyIntParse (pyStrip body) = some d) (h1 : 1 ≤ d) (h7 : d ≤ 7) :
    text_flow phone body STATES.AWAITING_DAY td uid rm0 sys sent0 oracle =
      Except.ok
        { response := { status := "success", message := none, error := none },
          sent := sent0 ++ [OutMessage.text ("Has seleccionado el día " ++ toString d ++ ". ¿A qué hora prefieres recibir las preguntas? Responde con un número del 0 al 23 (formato 24 horas).")],
          bg := [],
          sys := { sys with user_states := set_user_state sys.user_states phone STATES.AWAITING_HOUR (some (dictSet td "preferred_day" (d - 1).toNat)) } } := by
  simp only [text_flow, hd]
  simp [STATES.INITIAL, STATES.AWAITING_CONFIRMATION, STATES.AWAITING_DAY, h1, h7]
  intro hcontra
  have h2 := congrArg String.length hcontra
  simp [String.length_append] at h2
  exact absurd h2.2 (by decide)

theorem text_flow_day_int_range (phone body : String) (td : TempData) (uid : Nat)
    (rm0 : String) (sys : SysState) (sent0 : List OutMessage) (oracle : Oracle)
    (d : Int) (hd : pyIntParse (pyStrip body) = some d) (hout : ¬(1 ≤ d ∧ d ≤ 7)) :
    text_flow phone body STATES.AWAITING_DAY td uid rm0 sys sent0 oracle =
      Except.ok
        { response := { status := "success", message := none, error := none },
          sent := sent0 ++ [OutMessage.text "Por favor, elige un número del 1 al 7, donde 1 es lunes y 7 es domingo."],
          bg := [], sys := sys } := by
  simp only [text_flow, hd]
  simp [STATES.INITIAL, STATES.AWAITING_CONFIRMATION, STATES.AWAITING_DAY, hout]

theorem text_flow_day_name (phone body : String) (td : TempData) (uid : Nat)
    (rm0 : String) (sys : SysState) (sent0 : List OutMessage) (oracle : Oracle)
    (dv : Nat) (hd : pyIntParse (pyStrip body) = none) (hn : day_map (pyLower body) = some dv) :
    text_flow phone body STATES.AWAITING_DAY td uid rm0 sys sent0 oracle =
      Except.ok
        { response := { status := "success", message := none, error := none },
          sent := sent0 ++ [OutMessage.text ("Has seleccionado " ++ body ++ ". ¿A qué hora prefieres recibir las preguntas? Responde con un número del 0 al 23 (formato 24 horas).")],
          bg := [],
          sys := { sys with user_states := set_user_state sys.user_states phone STATES.AWAITING_HOUR (some (dictSet td "preferred_day" dv)) } } := by
  simp only [text_flow, hd, hn]
  simp [STATES.INITIAL, STATES.AWAITING_CONFIRMATION, STATES.AWAITING_DAY]
  intro hcontra
  have h2 := congrArg String.length hcontra
  simp [String.length_append] at h2
  exact absurd h2.2 (by decide)

theorem text_flow_day_unparse (phone body : String) (td : TempData) (uid : Nat)
    (rm0 : String) (sys : SysState) (sent0 : List OutMessage) (oracle : Oracle)
    (hd : pyIntParse (pyStrip body) = none) (hn : day_map (pyLower body) = none) :
    text_flow phone body STATES.AWAITING_DAY td uid rm0 sys sent0 oracle =
      Except.ok
        { response := { status := "success", message := none, error := none },
          sent := sent0 ++ [OutMessage.dayList "No pude entender tu selección. Por favor, selecciona un día de la semana:"],
          bg := [], sys := sys } := by
  simp only [text_flow, hd, hn]
  simp [STATES.INITIAL, STATES.AWAITING_CONFIRMATION, STATES.AWAITING_DAY]

theorem text_flow_hour_accept (phone body : String) (td : TempData) (uid : Nat)
    (rm0 : String) (sys : SysState) (sent0 : List OutMessage) (oracle : Oracle)
    (h : Int) (dn : String)
    (hh : pyIntParse (pyStrip body) = some h) (h0 : 0 ≤ h) (h23 : h ≤ 23)
    (hdn : days[dictGet td "preferred_day" 0]? = some dn) :
    text_flow phone body STATES.AWAITING_HOUR td uid rm0 sys sent0 oracle =
      Except.ok
        { response := { status := "success", message := none, error := none },
          sent := sent0 ++ [OutMessage.text ("¡Perfecto! Recibirás preguntas médicas cada " ++ dn ++ " a las " ++ toString h ++ ":00 horas. Para dejar de recibir preguntas, escribe DETENER en cualquier momento.")],
          bg := [BgTask.sampleQuestion phone],
          sys := { sys with
                   users := update_user_preferences sys.users uid (dictGet td "preferred_day" 0) h.toNat,
                   user_states := set_user_state sys.user_states phone STATES.SUBSCRIBED none } } := by
  simp only [text_flow, hh, hdn]
  simp [STATES.INITIAL, STATES.AWAITING_CONFIRMATION, STATES.AWAITING_DAY,
    STATES.AWAITING_HOUR, h0, h23]
  intro hcontra
  have h2 := congrArg String.length hcontra
  simp [String.length_append] at h2
  exact absurd h2.2 (by decide)

theorem text_flow_hour_range (phone body : String) (td : TempData) (uid : Nat)
    (rm0 : String) (sys : SysState) (sent0 : List OutMessage) (oracle : Oracle)
    (h : Int) (hh : pyIntParse (pyStrip body) = some h) (hout : ¬(0 ≤ h ∧ h ≤ 23)) :
    text_flow phone body STATES.AWAITING_HOUR td uid rm0 sys sent0 oracle =
      Except.ok
        { response := { status := "success", message := none, error := none },
          sent := sent0 ++ [OutMessage.text "Por favor, elige un número del 0 al 23."],
          bg := [], sys := sys } := by
  simp only [text_flow, hh]
  simp [STATES.INITIAL, STATES.AWAITING_CONFIRMATION, STATES.AWAITING_DAY,
    STATES.AWAITING_HOUR, hout]

theorem text_flow_hour_format (phone body : String) (td : TempData) (uid : Nat)
    (rm0 : String) (sys : SysState) (sent0 : List OutMessage) (oracle : Oracle)
    (hh : pyIntParse (pyStrip body) = none) :
    text_flow phone body STATES.AWAITING_HOUR td uid rm0 sys sent0 oracle =
      Except.ok
        { response := { status := "success", message := none, error := none },
          sent := sent0 ++ [OutMessage.text "Por favor, responde con un número del 0 al 23."],
          bg := [], sys := sys } := by
  simp only [text_flow, hh]
  simp [STATES.INITIAL, STATES.AWAITING_CONFIRMATION, STATES.AWAITING_DAY,
    STATES.AWAITING_HOUR]

theorem text_flow_sub_stop (phone body : String) (s : Nat) (td : TempData) (uid : Nat)
    (rm0 : String) (sys : SysState) (sent0 : List OutMessage) (oracle : Oracle)
    (hs : s = STATES.SUBSCRIBED ∨ s = STATES.AWAITING_QUESTION_RESPONSE)
    (hstop : (["detener", "stop", "unsubscribe"] : List String).contains (pyLower body) = true) :
    text_flow phone body s td uid rm0 sys sent0 oracle =
      Except.ok
        { response := { status := "success", message := none, error := none },
          sent := sent0 ++ [OutMessage.text "Has cancelado tu suscripción. Ya no recibirás preguntas médicas. Para volver a suscribirte, escribe INICIAR."],
          bg := [],
          sys := { sys with
                   users := deactivate_user sys.users uid,
                   user_states := set_user_state sys.user_states phone STATES.INITIAL none } } := by
  rcases hs with hs | hs <;>
    subst hs <;>
    (simp only [text_flow, hstop]
     simp [STATES.INITIAL, STATES.AWAITING_CONFIRMATION, STATES.AWAITING_DAY,
       STATES.AWAITING_HOUR, STATES.SUBSCRIBED, STATES.AWAITING_QUESTION_RESPONSE])

theorem text_flow_sub_start (phone body : String) (s : Nat) (td : TempData) (uid : Nat)
    (rm0 : String) (sys : SysState) (sent0 : List OutMessage) (oracle : Oracle)
    (hs : s = STATES.SUBSCRIBED ∨ s = STATES.AWAITING_QUESTION_RESPONSE)
    (hstop : (["detener", "stop", "unsubscribe"] : List String).contains (pyLower body) = false)
    (hstart : (["iniciar", "start", "subscribe"] : List String).contains (pyLower body) = true) :
    text_flow phone body s td uid rm0 sys sent0 oracle =
      Except.ok
        { response := { status := "success", message := none, error := none },
          sent := sent0 ++ [OutMessage.buttonPrompt "¿Deseas recibir preguntas médicas semanales para reforzar tus conocimientos?" "Configuración de suscripción"],
          bg := [],
          sys := { sys with user_states := set_user_state sys.user_states phone STATES.AWAITING_CONFIRMATION none } } := by
  rcases hs with hs | hs <;>
    subst hs <;>
    (simp only [text_flow, hstop, hstart]
     simp [STATES.INITIAL, STATES.AWAITING_CONFIRMATION, STATES.AWAITING_DAY,
       STATES.AWAITING_HOUR, STATES.SUBSCRIBED, STATES.AWAITING_QUESTION_RESPONSE])

theorem text_flow_sub_reminder (phone body : String) (s : Nat) (td : TempData) (uid : Nat)
    (rm0 : String) (sys : SysState) (sent0 : List OutMessage) (oracle : Oracle)
    (hs : s = STATES.SUBSCRIBED ∨ s = STATES.AWAITING_QUESTION_RESPONSE)
    (hstop : (["detener", "stop", "unsubscribe"] : List String).contains (pyLower body) = false)
    (hstart : (["iniciar", "start", "subscribe"] : List String).contains (pyLower body) = false)
    (hdig : isAllDigits (pyStrip body) = false ∨ s = STATES.SUBSCRIBED) :
    text_flow phone body s td uid rm0 sys sent0 oracle =
      Except.ok
        { response := { status := "success", message := none, error := none },
          sent := sent0 ++ [OutMessage.text "Recuerda que puedes utilizar estos comandos:\nDETENER - para dejar de recibir preguntas\nINICIAR - para configurar de nuevo tus preferencias"],
          bg := [], sys := sys } := by
  rcases hs with hs | hs <;> subst hs
  · simp only [text_flow, hstop, hstart]
    simp [STATES.INITIAL, STATES.AWAITING_CONFIRMATION, STATES.AWAITING_DAY,
      STATES.AWAITING_HOUR, STATES.SUBSCRIBED, STATES.AWAITING_QUESTION_RESPONSE]
  · rcases hdig with hdig | hdig
    · simp only [text_flow, hstop, hstart, hdig]
      simp [STATES.INITIAL, STATES.AWAITING_CONFIRMATION, STATES.AWAITING_DAY,
        STATES.AWAITING_HOUR, STATES.SUBSCRIBED, STATES.AWAITING_QUESTION_RESPONSE]
    · exact absurd hdig (by decide)

/-! ## Lemmas about user-directory updates -/

theorem mem_update_user_preferences (users : List User) (uid day hour : Nat) (v : User)
    (hv : v ∈ update_user_preferences users uid day hour) (hid : v.id = uid) :
    v.preferred_day = some day ∧ v.preferred_hour = some hour := by
  rcases List.mem_map.mp hv with ⟨w, hw, hfw⟩
  by_cases h : w.id = uid
  · rw [← hfw]
    simp [update_user_preferences, h] at hfw ⊢
  · exfalso
    apply h
    rw [← hfw] at hid
    simpa [h] using hid

theorem mem_deactivate_user (users : List User) (uid : Nat) (v : User)
    (hv : v ∈ deactivate_user users uid) (hid : v.id = uid) :
    v.is_active = false := by
  rcases List.mem_map.mp hv with ⟨w, hw, hfw⟩
  by_cases h : w.id = uid
  · rw [← hfw]
    simp [h]
  · exfalso
    apply h
    rw [← hfw] at hid
    simpa [h] using hid

theorem get_user_by_id_map (users : List User) (uid : Nat) (f : User → User)
    (hf : ∀ u, (f u).id = u.id) :
    get_user_by_id (users.map f) uid = (get_user_by_id users uid).map f := by
  induction users with
  | nil => rfl
  | cons w rest ih =>
    unfold get_user_by_id at ih ⊢
    simp only [List.map_cons, List.find?_cons]
    rw [hf w]
    cases hw : (w.id == uid) with
    | false => simpa [hw] using ih
    | true => simp [hw]

theorem get_user_by_id_id (users : List User) (uid : Nat) (u : User)
    (h : get_user_by_id users uid = some u) : u.id = uid := by
  unfold get_user_by_id at h
  have hp := List.find?_some h
  simpa using hp

/-! ## Reduction of one webhook call to the conversation state machine -/

theorem webhook_run_text (sys : SysState) (oracle : Oracle) (now : Nat)
    (phone body : String) (s : Nat) (td : TempData) (u : User)
    (hphone : ¬phone = "")
    (hu : get_user_by_phone sys.users phone = some u)
    (hs : lookupState sys.user_states phone = some { state := s, temp_data := td }) :
    runText sys oracle now phone body =
      match text_flow phone body s td u.id "" sys [] oracle with
      | Except.ok o => o
      | Except.error r =>
        { response := { status := "error", message := some r.msg, error := none },
          sent := r.sent, bg := [], sys := r.sys } := by
  unfold runText whatsapp_webhook webhook_body
  simp [hu, hs, get_user_state, hphone]

theorem webhook_run_yes_button (sys : SysState) (oracle : Oracle) (now : Nat)
    (phone title : String) (s : Nat) (td : TempData) (u : User)
    (hphone : ¬phone = "")
    (hu : get_user_by_phone sys.users phone = some u)
    (hs : lookupState sys.user_states phone = some { state := s, temp_data := td }) :
    runButton sys oracle now phone "yes_button" title =
      { response := { status := "success", message := none, error := none },
        sent := [OutMessage.dayList "Por favor selecciona el día de la semana en que deseas recibir las preguntas:"],
        bg := [],
        sys := { sys with user_states := set_user_state sys.user_states phone STATES.AWAITING_DAY none } } := by
  unfold runButton whatsapp_webhook webhook_body
  simp [hu, hs, get_user_state, hphone]

theorem webhook_run_no_button (sys : SysState) (oracle : Oracle) (now : Nat)
    (phone title : String) (s : Nat) (td : TempData) (u : User)
    (hphone : ¬phone = "")
    (hu : get_user_by_phone sys.users phone = some u)
    (hs : lookupState sys.user_states phone = some { state := s, temp_data := td }) :
    runButton sys oracle now phone "no_button" title =
      match text_flow phone "" s td u.id
          "Entendido. Si cambias de opinión, escribe INICIAR en cualquier momento."
          { sys with
            users := deactivate_user sys.users u.id,
            user_states := set_user_state sys.user_states phone STATES.INITIAL none }
          [] oracle with
      | Except.ok o => o
      | Except.error r =>
        { response := { status := "error", message := some r.msg, error := none },
          sent := r.sent, bg := [], sys := r.sys } := by
  unfold runButton whatsapp_webhook webhook_body
  simp [hu, hs, get_user_state, hphone]

theorem webhook_run_list_day (sys : SysState) (oracle : Oracle) (now : Nat)
    (phone rid title : String) (td : TempData) (u : User)
    (hphone : ¬phone = "")
    (hu : get_user_by_phone sys.users phone = some u)
    (hs : lookupState sys.user_states phone = some { state := STATES.AWAITING_DAY, temp_data := td }) :
    runListReply sys oracle now phone rid title =
      (if (handle_day_selection phone rid title u.id sys.users sys.user_states oracle now).ok = true then
        { response := { status := "success", message := none, error := none },
          sent := (handle_day_selection phone rid title u.id sys.users sys.user_states oracle now).sent,
          bg := [],
          sys := { sys with
                   users := (handle_day_selection phone rid title u.id sys.users sys.user_states oracle now).users,
                   user_states := (handle_day_selection phone rid title u.id sys.users sys.user_states oracle now).states } }
      else
        { response := { status := "success", message := none, error := none },
          sent := (handle_day_selection phone rid title u.id sys.users sys.user_states oracle now).sent ++ [OutMessage.dayList "No pude entender tu selección. Por favor, selecciona un día de la semana:"],
          bg := [],
          sys := { sys with
                   users := (handle_day_selection phone rid title u.id sys.users sys.user_states oracle now).users,
                   user_states := (handle_day_selection phone rid title u.id sys.users sys.user_states oracle now).states } }) := by
  have htf := fun sys2 sent0 =>
    text_flow_day_unparse phone "" td u.id "" sys2 sent0 oracle rfl rfl
  simp only [STATES.AWAITING_DAY] at htf
  unfold runListReply whatsapp_webhook webhook_body
  simp [hu, hs, get_user_state, hphone, STATES.AWAITING_DAY, STATES.AWAITING_QUESTION_RESPONSE]
  cases hok : (handle_day_selection phone rid title u.id sys.users sys.user_states oracle now).ok
  · simp [hok, htf]
  · simp [hok]

/-! ## Claim C3: hour validation in AWAITING_HOUR -/

/-- Claim C3: in AWAITING_HOUR exactly the integers in [0,23] are accepted —
persisting the staged preferred day together with the hour and moving the
state to SUBSCRIBED (with a demonstration-question task scheduled) — while
parseable integers outside the range and non-integers are each rejected with
the corresponding range/format error message and an unchanged record; the
inputs "24" and "-1" parse as out-of-range integers and "9am" fails to
parse, so all three are rejected. -/
theorem hour_validation_exact (sys : SysState) (oracle : Oracle) (now : Nat)
    (phone body : String) (td : TempData) (u : User)
    (hphone : ¬phone = "")
    (hu : get_user_by_phone sys.users phone = some u)
    (hs : lookupState sys.user_states phone = some { state := STATES.AWAITING_HOUR, temp_data := td })
    (hpd : dictGet td "preferred_day" 0 < 7) :
    (∀ h : Int, pyIntParse (pyStrip body) = some h → 0 ≤ h → h ≤ 23 →
      lookupState (runText sys oracle now phone body).sys.user_states phone =
          some { state := STATES.SUBSCRIBED, temp_data := [] } ∧
        (∀ v, v ∈ (runText sys oracle now phone body).sys.users → v.id = u.id →
          v.preferred_day = some (dictGet td "preferred_day" 0) ∧ v.preferred_hour = some h.toNat) ∧
        (runText sys oracle now phone body).bg = [BgTask.sampleQuestion phone] ∧
        (runText sys oracle now phone body).response.status = "success") ∧
    (∀ h : Int, pyIntParse (pyStrip body) = some h → ¬(0 ≤ h ∧ h ≤ 23) →
      lookupState (runText sys oracle now phone body).sys.user_states phone =
          some { state := STATES.AWAITING_HOUR, temp_data := td } ∧
        (runText sys oracle now phone body).sent =
          [OutMessage.text "Por favor, elige un número del 0 al 23."]) ∧
    (pyIntParse (pyStrip body) = none →
      lookupState (runText sys oracle now phone body).sys.user_states phone =
          some { state := STATES.AWAITING_HOUR, temp_data := td } ∧
        (runText sys oracle now phone body).sent =
          [OutMessage.text "Por favor, responde con un número del 0 al 23."]) ∧
    pyIntParse "24" = some 24 ∧ pyIntParse "-1" = some (-1) ∧ pyIntParse "9am" = none := by
  have hrun := webhook_run_text sys oracle now phone body
    STATES.AWAITING_HOUR td u hphone hu hs
  refine ⟨fun h hh h0 h23 => ?_, fun h hh hout => ?_, fun hh => ?_, by decide, by decide, by decide⟩
  · obtain ⟨dn, hdn⟩ : ∃ dn, days[dictGet td "preferred_day" 0]? = some dn := by
      have hlt : dictGet td "preferred_day" 0 < days.length := by
        simpa [days] using hpd
      simp [List.getElem?_eq_getElem hlt]
    rw [hrun, text_flow_hour_accept phone body td u.id "" sys [] oracle h dn hh h0 h23 hdn]
    exact ⟨lookupState_store_self _ _ _,
      fun v hv hvid => mem_update_user_preferences _ _ _ _ v hv hvid, rfl, rfl⟩
  · rw [hrun, text_flow_hour_range phone body td u.id "" sys [] oracle h hh hout]
    exact ⟨hs, rfl⟩
  · rw [hrun, text_flow_hour_format phone body td u.id "" sys [] oracle hh]
    exact ⟨hs, rfl⟩

/-- Check of `hour_validation_exact` at concrete inputs: "9" subscribes
(state SUBSCRIBED), and "25" is rejected with the range error while the
record stays in AWAITING_HOUR. -/
theorem hour_validation_exact_check :
    lookupState (runText (chkSys 3 [("preferred_day", 2)]) chkOracle 0 "51999" "9").sys.user_states "51999" =
      some { state := STATES.SUBSCRIBED, temp_data := [] } ∧
    (runText (chkSys 3 [("preferred_day", 2)]) chkOracle 0 "51999" "25").sent =
      [OutMessage.text "Por favor, elige un número del 0 al 23."] := by
  constructor
  · exact ((hour_validation_exact (chkSys 3 [("preferred_day", 2)]) chkOracle 0 "51999" "9"
      [("preferred_day", 2)] (create_user 0 "51999") (by decide) rfl rfl
      (by decide)).1 9 (by decide) (by decide) (by decide)).1
  · exact ((hour_validation_exact (chkSys 3 [("preferred_day", 2)]) chkOracle 0 "51999" "25"
      [("preferred_day", 2)] (create_user 0 "51999") (by decide) rfl rfl
      (by decide)).2.1 25 (by decide) (by decide)).2

/-! ## Claim C10: missing staged day defaults to Monday -/

/-- Claim C10: a user in AWAITING_HOUR whose temp data has no
"preferred_day" key does not fail on a valid hour reply: the preferences are
persisted with day 0 (Monday) and the confirmation message names "lunes". -/
theorem missing_day_defaults_monday (sys : SysState) (oracle : Oracle) (now : Nat)
    (phone body : String) (td : TempData) (u : User) (h : Int)
    (hphone : ¬phone = "")
    (hu : get_user_by_phone sys.users phone = some u)
    (hs : lookupState sys.user_states phone = some { state := STATES.AWAITING_HOUR, temp_data := td })
    (hnd : dictLookup td "preferred_day" = none)
    (hh : pyIntParse (pyStrip body) = some h) (h0 : 0 ≤ h) (h23 : h ≤ 23) :
    lookupState (runText sys oracle now phone body).sys.user_states phone =
        some { state := STATES.SUBSCRIBED, temp_data := [] } ∧
    (∀ v, v ∈ (runText sys oracle now phone body).sys.users → v.id = u.id →
      v.preferred_day = some 0 ∧ v.preferred_hour = some h.toNat) ∧
    (runText sys oracle now phone body).sent =
      [OutMessage.text ("¡Perfecto! Recibirás preguntas médicas cada " ++ "lunes" ++ " a las " ++ toString h ++ ":00 horas. Para dejar de recibir preguntas, escribe DETENER en cualquier momento.")] := by
  have hget : dictGet td "preferred_day" 0 = 0 := dictGet_of_lookup_none td _ 0 hnd
  have hdn : days[dictGet td "preferred_day" 0]? = some "lunes" := by
    rw [hget]
    rfl
  have hrun := webhook_run_text sys oracle now phone body
    STATES.AWAITING_HOUR td u hphone hu hs
  rw [hrun, text_flow_hour_accept phone body td u.id "" sys [] oracle h "lunes" hh h0 h23 hdn]
  refine ⟨lookupState_store_self _ _ _, fun v hv hvid => ?_, rfl⟩
  have h2 := mem_update_user_preferences sys.users u.id (dictGet td "preferred_day" 0) h.toNat v hv hvid
  rw [hget] at h2
  exact h2

/-- Check of `missing_day_defaults_monday` at a concrete input: hour "14"
with no staged day yields the confirmation naming "lunes". -/
theorem missing_day_defaults_monday_check :
    (runText (chkSys 3 []) chkOracle 0 "51999" "14").sent =
      [OutMessage.text ("¡Perfecto! Recibirás preguntas médicas cada " ++ "lunes" ++ " a las " ++ toString (14 : Int) ++ ":00 horas. Para dejar de recibir preguntas, escribe DETENER en cualquier momento.")] :=
  (missing_day_defaults_monday (chkSys 3 []) chkOracle 0 "51999" "14" []
    (create_user 0 "51999") 14 (by decide) rfl rfl rfl
    (by decide) (by decide) (by decide)).2.2

/-! ## Claim C5: unsubscribe commands -/

/-- Claim C5: in SUBSCRIBED or AWAITING_QUESTION_RESPONSE, a free-text
message whose lower-casing is one of detener/stop/unsubscribe deactivates
the user record, sends the cancellation notice, and resets the conversation
state to INITIAL. -/
theorem unsubscribe_command_deactivates (sys : SysState) (oracle : Oracle) (now : Nat)
    (phone body : String) (s : Nat) (td : TempData) (u : User)
    (hphone : ¬phone = "")
    (hu : get_user_by_phone sys.users phone = some u)
    (hs : lookupState sys.user_states phone = some { state := s, temp_data := td })
    (hstate : s = STATES.SUBSCRIBED ∨ s = STATES.AWAITING_QUESTION_RESPONSE)
    (hcmd : (["detener", "stop", "unsubscribe"] : List String).contains (pyLower body) = true) :
    lookupState (runText sys oracle now phone body).sys.user_states phone =
        some { state := STATES.INITIAL, temp_data := [] } ∧
    (∀ v, v ∈ (runText sys oracle now phone body).sys.users → v.id = u.id →
      v.is_active = false) ∧
    (runText sys oracle now phone body).sent =
      [OutMessage.text "Has cancelado tu suscripción. Ya no recibirás preguntas médicas. Para volver a suscribirte, escribe INICIAR."] := by
  have hrun := webhook_run_text sys oracle now phone body
    s td u hphone hu hs
  rw [hrun, text_flow_sub_stop phone body s td u.id "" sys [] oracle hstate hcmd]
  exact ⟨lookupState_store_self _ _ _,
    fun v hv hvid => mem_deactivate_user _ _ v hv hvid, rfl⟩

/-- Check of `unsubscribe_command_deactivates` at a concrete input: a
SUBSCRIBED user sending "DETENER" ends in INITIAL with the cancellation
notice sent. -/
theorem unsubscribe_command_check :
    lookupState (runText (chkSys 4 []) chkOracle 0 "51999" "DETENER").sys.user_states "51999" =
      some { state := STATES.INITIAL, temp_data := [] } ∧
    (runText (chkSys 4 []) chkOracle 0 "51999" "DETENER").sent =
      [OutMessage.text "Has cancelado tu suscripción. Ya no recibirás preguntas médicas. Para volver a suscribirte, escribe INICIAR."] := by
  constructor
  · exact (unsubscribe_command_deactivates (chkSys 4 []) chkOracle 0 "51999" "DETENER"
      4 [] (create_user 0 "51999") (by decide) rfl rfl (Or.inl rfl) (by decide)).1
  · exact (unsubscribe_command_deactivates (chkSys 4 []) chkOracle 0 "51999" "DETENER"
      4 [] (create_user 0 "51999") (by decide) rfl rfl (Or.inl rfl) (by decide)).2.2

/-! ## Claim C4: free-text day resolution in AWAITING_DAY -/

/-- Claim C4 is false as stated: in AWAITING_DAY the text "8" is neither a
day name nor an integer 1-7, yet the handler does not resend the
day-selection list — it answers with the 1-to-7 range error text (the state
does stay unchanged). -/
theorem day_text_out_of_range_counterexample :
    (runText
        { users := [create_user 0 "51999"], next_user_id := 1,
          user_states := [("51999", { state := 2, temp_data := [] })] }
        { randomQuestion := none, sendListOk := true,
          processResp := fun _ _ => (true, "ok"), processRespFromList := fun _ _ _ => (true, "ok") }
        0 "51999" "8").sent =
      [OutMessage.text "Por favor, elige un número del 1 al 7, donde 1 es lunes y 7 es domingo."] ∧
    lookupState (runText
        { users := [create_user 0 "51999"], next_user_id := 1,
          user_states := [("51999", { state := 2, temp_data := [] })] }
        { randomQuestion := none, sendListOk := true,
          processResp := fun _ _ => (true, "ok"), processRespFromList := fun _ _ _ => (true, "ok") }
        0 "51999" "8").sys.user_states "51999" =
      some { state := 2, temp_data := [] } :=
  ⟨rfl, rfl⟩

/-- Claim C4 (amended): in AWAITING_DAY, free-text day resolution accepts
the canonical Spanish weekday names case-insensitively — including both
accented and unaccented spellings of miércoles and sábado — and the
integers 1-7 (1 → Monday = 0 … 7 → Sunday = 6), in each case staging the
resolved index in temp data under "preferred_day" and moving to
AWAITING_HOUR; text that parses neither as an integer nor as a day name
resends the day-selection list with the state unchanged; integer text
outside 1-7, however, is answered with a 1-to-7 range error message (not
the day list), also leaving the state unchanged. -/
theorem day_text_resolution (sys : SysState) (oracle : Oracle) (now : Nat)
    (phone body : String) (td : TempData) (u : User)
    (hphone : ¬phone = "")
    (hu : get_user_by_phone sys.users phone = some u)
    (hs : lookupState sys.user_states phone = some { state := STATES.AWAITING_DAY, temp_data := td }) :
    (∀ d : Int, pyIntParse (pyStrip body) = some d → 1 ≤ d → d ≤ 7 →
      lookupState (runText sys oracle now phone body).sys.user_states phone =
          some { state := STATES.AWAITING_HOUR,
                 temp_data := dictSet td "preferred_day" (d - 1).toNat } ∧
        (runText sys oracle now phone body).response.status = "success") ∧
    (∀ dv : Nat, pyIntParse (pyStrip body) = none → day_map (pyLower body) = some dv →
      lookupState (runText sys oracle now phone body).sys.user_states phone =
          some { state := STATES.AWAITING_HOUR,
                 temp_data := dictSet td "preferred_day" dv } ∧
        (runText sys oracle now phone body).response.status = "success") ∧
    (pyIntParse (pyStrip body) = none → day_map (pyLower body) = none →
      lookupState (runText sys oracle now phone body).sys.user_states phone =
          some { state := STATES.AWAITING_DAY, temp_data := td } ∧
        (runText sys oracle now phone body).sent =
          [OutMessage.dayList "No pude entender tu selección. Por favor, selecciona un día de la semana:"]) ∧
    (∀ d : Int, pyIntParse (pyStrip body) = some d → ¬(1 ≤ d ∧ d ≤ 7) →
      lookupState (runText sys oracle now phone body).sys.user_states phone =
          some { state := STATES.AWAITING_DAY, temp_data := td } ∧
        (runText sys oracle now phone body).sent =
          [OutMessage.text "Por favor, elige un número del 1 al 7, donde 1 es lunes y 7 es domingo."]) ∧
    day_map (pyLower "MIÉRCOLES") = some 2 ∧ day_map (pyLower "Miercoles") = some 2 ∧
    day_map (pyLower "SÁBADO") = some 5 ∧ day_map (pyLower "Sabado") = some 5 ∧
    day_map (pyLower "LUNES") = some 0 ∧ day_map (pyLower "Martes") = some 1 ∧
    day_map (pyLower "JUEVES") = some 3 ∧ day_map (pyLower "viernes") = some 4 ∧
    day_map (pyLower "Domingo") = some 6 := by
  have hrun := webhook_run_text sys oracle now phone body
    STATES.AWAITING_DAY td u hphone hu hs
  refine ⟨fun d hd h1 h7 => ?_, fun dv hd hn => ?_, fun hd hn => ?_, fun d hd hout => ?_,
    by decide, by decide, by decide, by decide, by decide, by decide, by decide, by decide, by decide⟩
  · rw [hrun, text_flow_day_int phone body td u.id "" sys [] oracle d hd h1 h7]
    exact ⟨lookupState_store_self _ _ _, rfl⟩
  · rw [hrun, text_flow_day_name phone body td u.id "" sys [] oracle dv hd hn]
    exact ⟨lookupState_store_self _ _ _, rfl⟩
  · rw [hrun, text_flow_day_unparse phone body td u.id "" sys [] oracle hd hn]
    exact ⟨hs, rfl⟩
  · rw [hrun, text_flow_day_int_range phone body td u.id "" sys [] oracle d hd hout]
    exact ⟨hs, rfl⟩

/-- Check of `day_text_resolution` at concrete inputs: "3" stages day index
2 and moves to AWAITING_HOUR; "MIÉRCOLES" stages day index 2 and moves to
AWAITING_HOUR; "mañana" resends the day list with the state unchanged. -/
theorem day_text_resolution_check :
    lookupState (runText (chkSys 2 []) chkOracle 0 "51999" "3").sys.user_states "51999" =
      some { state := STATES.AWAITING_HOUR, temp_data := [("preferred_day", 2)] } ∧
    lookupState (runText (chkSys 2 []) chkOracle 0 "51999" "MIÉRCOLES").sys.user_states "51999" =
      some { state := STATES.AWAITING_HOUR, temp_data := [("preferred_day", 2)] } ∧
    (runText (chkSys 2 []) chkOracle 0 "51999" "mañana").sent =
      [OutMessage.dayList "No pude entender tu selección. Por favor, selecciona un día de la semana:"] := by
  refine ⟨?_, ?_, ?_⟩
  · exact ((day_text_resolution (chkSys 2 []) chkOracle 0 "51999" "3" []
      (create_user 0 "51999") (by decide) rfl rfl).1 3 (by decide) (by decide) (by decide)).1
  · exact ((day_text_resolution (chkSys 2 []) chkOracle 0 "51999" "MIÉRCOLES" []
      (create_user 0 "51999") (by decide) rfl rfl).2.1 2 (by decide) (by decide)).1
  · exact ((day_text_resolution (chkSys 2 []) chkOracle 0 "51999" "mañana" []
      (create_user 0 "51999") (by decide) rfl rfl).2.2.1 (by decide) (by decide)).2

/-! ## Claim C1: the fallback invariant for uncovered events -/

/-- Claim C1 is false as stated: a yes_button reply arriving in SUBSCRIBED —
a state whose rows do not mention button replies — does not leave the stored
state unchanged with a reminder: it moves the user to AWAITING_DAY. -/
theorem uncovered_button_counterexample :
    lookupState (runButton
        { users := [create_user 0 "51999"], next_user_id := 1,
          user_states := [("51999", { state := 4, temp_data := [] })] }
        { randomQuestion := none, sendListOk := true,
          processResp := fun _ _ => (true, "ok"), processRespFromList := fun _ _ _ => (true, "ok") }
        0 "51999" "yes_button" "Sí").sys.user_states "51999" =
      some { state := STATES.AWAITING_DAY, temp_data := [] } ∧
    STATES.AWAITING_DAY ≠ STATES.SUBSCRIBED :=
  ⟨rfl, by decide⟩

/-- Claim C1 (amended): for every state S other than INITIAL and every
free-text message matching none of S's specific action patterns
(`recognized_text`), processing leaves the stored conversation record
unchanged and sends at least one reminder/clarification message — never no
response. Button and list replies, however, are handled by the interactive
branch, which is state-independent and can change the state (a yes_button
reply moves any state to AWAITING_DAY). -/
theorem fallback_free_text (sys : SysState) (oracle : Oracle) (now : Nat)
    (phone body : String) (s : Nat) (td : TempData) (u : User)
    (hphone : ¬phone = "")
    (hu : get_user_by_phone sys.users phone = some u)
    (hs : lookupState sys.user_states phone = some { state := s, temp_data := td })
    (hst : s = STATES.AWAITING_CONFIRMATION ∨ s = STATES.AWAITING_DAY ∨
           s = STATES.AWAITING_HOUR ∨ s = STATES.SUBSCRIBED ∨
           s = STATES.AWAITING_QUESTION_RESPONSE)
    (hrec : recognized_text s body = false) :
    lookupState (runText sys oracle now phone body).sys.user_states phone =
        some { state := s, temp_data := td } ∧
    (runText sys oracle now phone body).sent ≠ [] ∧
    (runText sys oracle now phone body).response.status = "success" := by
  have hrun := webhook_run_text sys oracle now phone body
    s td u hphone hu hs
  rcases hst with h1 | h1 | h1 | h1 | h1 <;> subst h1
  · have hor : ((["si", "sí", "yes", "y"] : List String).contains (pyLower body) ||
        (["no", "n"] : List String).contains (pyLower body)) = false := hrec
    rcases Bool.or_eq_false_iff.mp hor with ⟨hyes, hno⟩
    rw [hrun, text_flow_conf_other phone body td u.id "" sys [] oracle hyes hno]
    exact ⟨hs, by simp, rfl⟩
  · have h3 : (match pyIntParse (pyStrip body) with
        | some d => decide (1 ≤ d ∧ d ≤ 7)
        | none => (day_map (pyLower body)).isSome) = false := hrec
    rcases hp : pyIntParse (pyStrip body) with _ | d
    · rw [hp] at h3
      have hn : day_map (pyLower body) = none := by
        rcases hdm : day_map (pyLower body) with _ | x
        · rfl
        · rw [hdm] at h3
          simp at h3
      rw [hrun, text_flow_day_unparse phone body td u.id "" sys [] oracle hp hn]
      exact ⟨hs, by simp, rfl⟩
    · rw [hp] at h3
      have hout : ¬(1 ≤ d ∧ d ≤ 7) := of_decide_eq_false h3
      rw [hrun, text_flow_day_int_range phone body td u.id "" sys [] oracle d hp hout]
      exact ⟨hs, by simp, rfl⟩
  · have h3 : (match pyIntParse (pyStrip body) with
        | some h => decide (0 ≤ h ∧ h ≤ 23)
        | none => false) = false := hrec
    rcases hp : pyIntParse (pyStrip body) with _ | h
    · rw [hrun, text_flow_hour_format phone body td u.id "" sys [] oracle hp]
      exact ⟨hs, by simp, rfl⟩
    · rw [hp] at h3
      have hout : ¬(0 ≤ h ∧ h ≤ 23) := of_decide_eq_false h3
      rw [hrun, text_flow_hour_range phone body td u.id "" sys [] oracle h hp hout]
      exact ⟨hs, by simp, rfl⟩
  · have hor : ((["detener", "stop", "unsubscribe"] : List String).contains (pyLower body) ||
        (["iniciar", "start", "subscribe"] : List String).contains (pyLower body)) = false := hrec
    rcases Bool.or_eq_false_iff.mp hor with ⟨hstop, hstart⟩
    rw [hrun, text_flow_sub_reminder phone body STATES.SUBSCRIBED td u.id "" sys [] oracle
      (Or.inl rfl) hstop hstart (Or.inr rfl)]
    exact ⟨hs, by simp, rfl⟩
  · have hor : (((["detener", "stop", "unsubscribe"] : List String).contains (pyLower body) ||
        (["iniciar", "start", "subscribe"] : List String).contains (pyLower body)) ||
          isAllDigits (pyStrip body)) = false := hrec
    rcases Bool.or_eq_false_iff.mp hor with ⟨hor2, hdig⟩
    rcases Bool.or_eq_false_iff.mp hor2 with ⟨hstop, hstart⟩
    rw [hrun, text_flow_sub_reminder phone body STATES.AWAITING_QUESTION_RESPONSE td u.id "" sys [] oracle
      (Or.inr rfl) hstop hstart (Or.inl hdig)]
    exact ⟨hs, by simp, rfl⟩

/-- Check of `fallback_free_text` at a concrete input: a SUBSCRIBED user
sending "hola" keeps state SUBSCRIBED and receives a nonempty reminder. -/
theorem fallback_free_text_check :
    lookupState (runText (chkSys 4 []) chkOracle 0 "51999" "hola").sys.user_states "51999" =
      some { state := 4, temp_data := [] } ∧
    (runText (chkSys 4 []) chkOracle 0 "51999" "hola").sent ≠ [] := by
  have h := fallback_free_text (chkSys 4 []) chkOracle 0 "51999" "hola" 4 []
    (create_user 0 "51999") (by decide) rfl rfl
    (Or.inr (Or.inr (Or.inr (Or.inl rfl)))) (by decide)
  exact ⟨h.1, h.2.1⟩

/-! ## Claim C9: button replies are state-independent -/

/-- Claim C9 is false as stated: a no_button reply for a user in INITIAL
does deactivate the user, but processing then falls through into the
INITIAL text branch, which sends the welcome prompt and leaves the stored
state AWAITING_CONFIRMATION, not INITIAL. -/
theorem no_button_initial_counterexample :
    lookupState (runButton
        { users := [create_user 0 "51999"], next_user_id := 1,
          user_states := [("51999", { state := 0, temp_data := [] })] }
        { randomQuestion := none, sendListOk := true,
          processResp := fun _ _ => (true, "ok"), processRespFromList := fun _ _ _ => (true, "ok") }
        0 "51999" "no_button" "No").sys.user_states "51999" =
      some { state := STATES.AWAITING_CONFIRMATION, temp_data := [] } ∧
    STATES.AWAITING_CONFIRMATION ≠ STATES.INITIAL :=
  ⟨rfl, by decide⟩

/-- Claim C9 (amended): button replies are handled independently of the
conversation state: from any of the six states, yes_button sends the
day-selection list and sets the state to AWAITING_DAY, and no_button
deactivates the user; no_button processing then falls through to the
free-text branch under the old state, so the final stored state is INITIAL
for every starting state except INITIAL itself, where the welcome path
leaves the user in AWAITING_CONFIRMATION. -/
theorem button_reply_state_independent (sys : SysState) (oracle : Oracle) (now : Nat)
    (phone title : String) (s : Nat) (td : TempData) (u : User)
    (hphone : ¬phone = "")
    (hu : get_user_by_phone sys.users phone = some u)
    (hs : lookupState sys.user_states phone = some { state := s, temp_data := td })
    (hle : s ≤ 5) :
    (lookupState (runButton sys oracle now phone "yes_button" title).sys.user_states phone =
        some { state := STATES.AWAITING_DAY, temp_data := [] } ∧
     (runButton sys oracle now phone "yes_button" title).sent =
        [OutMessage.dayList "Por favor selecciona el día de la semana en que deseas recibir las preguntas:"]) ∧
    ((∀ v, v ∈ (runButton sys oracle now phone "no_button" title).sys.users → v.id = u.id →
        v.is_active = false) ∧
     lookupState (runButton sys oracle now phone "no_button" title).sys.user_states phone =
        some (if s = STATES.INITIAL
              then { state := STATES.AWAITING_CONFIRMATION, temp_data := [] }
              else { state := STATES.INITIAL, temp_data := [] })) := by
  constructor
  · rw [webhook_run_yes_button sys oracle now phone title
      s td u hphone hu hs]
    exact ⟨lookupState_store_self _ _ _, rfl⟩
  · rw [webhook_run_no_button sys oracle now phone title
      s td u hphone hu hs]
    interval_cases s
    · rw [text_flow_initial phone ""  td u.id
        "Entendido. Si cambias de opinión, escribe INICIAR en cualquier momento." _ [] oracle]
      exact ⟨fun v hv hvid => mem_deactivate_user _ _ v hv hvid,
        by simp [set_user_state, lookupState_store_self]⟩
    · rw [text_flow_conf_other phone "" td u.id
        "Entendido. Si cambias de opinión, escribe INICIAR en cualquier momento." _ [] oracle
        (by decide) (by decide)]
      exact ⟨fun v hv hvid => mem_deactivate_user _ _ v hv hvid,
        by simp [set_user_state, lookupState_store_self]⟩
    · rw [text_flow_day_unparse phone "" td u.id
        "Entendido. Si cambias de opinión, escribe INICIAR en cualquier momento." _ [] oracle rfl rfl]
      exact ⟨fun v hv hvid => mem_deactivate_user _ _ v hv hvid,
        by simp [set_user_state, lookupState_store_self]⟩
    · rw [text_flow_hour_format phone "" td u.id
        "Entendido. Si cambias de opinión, escribe INICIAR en cualquier momento." _ [] oracle rfl]
      exact ⟨fun v hv hvid => mem_deactivate_user _ _ v hv hvid,
        by simp [set_user_state, lookupState_store_self]⟩
    · rw [text_flow_sub_reminder phone "" STATES.SUBSCRIBED td u.id
        "Entendido. Si cambias de opinión, escribe INICIAR en cualquier momento." _ [] oracle
        (Or.inl rfl) (by decide) (by decide) (Or.inr rfl)]
      exact ⟨fun v hv hvid => mem_deactivate_user _ _ v hv hvid,
        by simp [set_user_state, lookupState_store_self]⟩
    · rw [text_flow_sub_reminder phone "" STATES.AWAITING_QUESTION_RESPONSE td u.id
        "Entendido. Si cambias de opinión, escribe INICIAR en cualquier momento." _ [] oracle
        (Or.inr rfl) (by decide) (by decide) (Or.inl (by decide))]
      exact ⟨fun v hv hvid => mem_deactivate_user _ _ v hv hvid,
        by simp [set_user_state, lookupState_store_self]⟩

/-- Check of `button_reply_state_independent` at a concrete input: for a
SUBSCRIBED user, yes_button moves the state to AWAITING_DAY, and no_button
deactivation ends in INITIAL. -/
theorem button_reply_state_independent_check :
    lookupState (runButton (chkSys 4 []) chkOracle 0 "51999" "yes_button" "x").sys.user_states "51999" =
      some { state := STATES.AWAITING_DAY, temp_data := [] } ∧
    lookupState (runButton (chkSys 4 []) chkOracle 0 "51999" "no_button" "x").sys.user_states "51999" =
      some { state := STATES.INITIAL, temp_data := [] } := by
  have h := button_reply_state_independent (chkSys 4 []) chkOracle 0 "51999" "x" 4 []
    (create_user 0 "51999") (by decide) rfl rfl (by decide)
  exact ⟨h.1.1, by simpa using h.2.2⟩

/-! ## Claim C2: list selection of a day in AWAITING_DAY -/

/-- Claim C2: when a user in AWAITING_DAY sends a list selection of a day,
the engine resolves the day title to an index 0-6, persists the preferences
with the hour defaulting to 9, records a random question as the user's
pending question (last_question_id) and sends it as a selectable list,
transitioning to AWAITING_QUESTION_RESPONSE when the send succeeds; if the
day title is invalid or no question is available, the user receives an
error message and the stored state stays unchanged. -/
theorem day_list_selection_flow (sys : SysState) (oracle : Oracle) (now : Nat)
    (phone rid title : String) (td : TempData) (u u0 : User)
    (hphone : ¬phone = "")
    (hu : get_user_by_phone sys.users phone = some u)
    (hs : lookupState sys.user_states phone = some { state := STATES.AWAITING_DAY, temp_data := td })
    (hid : get_user_by_id sys.users u.id = some u0) :
    (∀ (dv : Nat) (q : Question), day_map (pyLower title) = some dv →
      oracle.randomQuestion = some q → oracle.sendListOk = true →
      lookupState (runListReply sys oracle now phone rid title).sys.user_states phone =
          some { state := STATES.AWAITING_QUESTION_RESPONSE, temp_data := [] } ∧
        get_user_by_id (runListReply sys oracle now phone rid title).sys.users u.id =
          some { u0 with
                 preferred_day := some dv, preferred_hour := some 9,
                 last_question_id := some q.id, last_message_sent := some now } ∧
        (runListReply sys oracle now phone rid title).sent =
          [OutMessage.questionList q.id q.text q.options] ∧
        (runListReply sys oracle now phone rid title).response.status = "success") ∧
    (day_map (pyLower title) = none →
      lookupState (runListReply sys oracle now phone rid title).sys.user_states phone =
          some { state := STATES.AWAITING_DAY, temp_data := td } ∧
        OutMessage.text "Lo siento, hubo un error con tu selección. Por favor intenta de nuevo."
          ∈ (runListReply sys oracle now phone rid title).sent) ∧
    (∀ dv : Nat, day_map (pyLower title) = some dv → oracle.randomQuestion = none →
      lookupState (runListReply sys oracle now phone rid title).sys.user_states phone =
          some { state := STATES.AWAITING_DAY, temp_data := td } ∧
        OutMessage.text "Lo sentimos, no pudimos encontrar preguntas disponibles. Por favor intenta más tarde."
          ∈ (runListReply sys oracle now phone rid title).sent) := by
  have hrun := webhook_run_list_day sys oracle now phone rid title td u hphone hu hs
  refine ⟨fun dv q hdv hq hsend => ?_, fun hdv => ?_, fun dv hdv hq => ?_⟩
  · have hid0 : u0.id = u.id := get_user_by_id_id _ _ _ hid
    have hmap1 : get_user_by_id (update_user_preferences sys.users u.id dv 9) u.id =
        some { u0 with preferred_day := some dv, preferred_hour := some 9 } := by
      unfold update_user_preferences
      rw [get_user_by_id_map sys.users u.id _
        (fun w => by by_cases hw : w.id = u.id <;> simp [hw]), hid]
      simp [hid0]
    have hmap2 : get_user_by_id
        (record_last_question (update_user_preferences sys.users u.id dv 9) u.id q.id now) u.id =
        some { u0 with
               preferred_day := some dv, preferred_hour := some 9,
               last_question_id := some q.id, last_message_sent := some now } := by
      unfold record_last_question
      rw [get_user_by_id_map _ u.id _
        (fun w => by by_cases hw : w.id = u.id <;> simp [hw]), hmap1]
      simp [hid0]
    have hr : handle_day_selection phone rid title u.id sys.users sys.user_states oracle now =
        { ok := true,
          users := record_last_question (update_user_preferences sys.users u.id dv 9) u.id q.id now,
          states := set_user_state sys.user_states phone STATES.AWAITING_QUESTION_RESPONSE none,
          sent := [OutMessage.questionList q.id q.text q.options] } := by
      unfold handle_day_selection
      simp [hdv, hq, hmap1, hsend]
    rw [hrun, hr]
    exact ⟨lookupState_store_self _ _ _, hmap2, rfl, rfl⟩
  · have hr : handle_day_selection phone rid title u.id sys.users sys.user_states oracle now =
        { ok := false, users := sys.users, states := sys.user_states,
          sent := [OutMessage.text "Lo siento, hubo un error con tu selección. Por favor intenta de nuevo."] } := by
      unfold handle_day_selection
      rw [hdv]
    rw [hrun, hr]
    exact ⟨hs, by simp⟩
  · have hr : handle_day_selection phone rid title u.id sys.users sys.user_states oracle now =
        { ok := false, users := update_user_preferences sys.users u.id dv 9,
          states := sys.user_states,
          sent := [OutMessage.text "Lo sentimos, no pudimos encontrar preguntas disponibles. Por favor intenta más tarde."] } := by
      unfold handle_day_selection
      simp [hdv, hq]
    rw [hrun, hr]
    exact ⟨hs, by simp⟩

/-- Check of `day_list_selection_flow` at a concrete input: selecting
"Miércoles" from the day list persists day 2 with hour 9, records question
7 as pending, sends it as a selectable list, and moves the state to
AWAITING_QUESTION_RESPONSE. -/
theorem day_list_selection_check :
    lookupState (runListReply (chkSys 2 []) chkOracleQ 5 "51999" "day_3" "Miércoles").sys.user_states "51999" =
      some { state := STATES.AWAITING_QUESTION_RESPONSE, temp_data := [] } ∧
    get_user_by_id (runListReply (chkSys 2 []) chkOracleQ 5 "51999" "day_3" "Miércoles").sys.users 0 =
      some { id := 0, phone_number := "51999", is_active := true, is_blacklisted := false,
             preferred_day := some 2, preferred_hour := some 9,
             last_question_id := some 7, last_message_sent := some 5 } ∧
    (runListReply (chkSys 2 []) chkOracleQ 5 "51999" "day_3" "Miércoles").sent =
      [OutMessage.questionList 7 "q?" ["a", "b"]] := by
  have h := (day_list_selection_flow (chkSys 2 []) chkOracleQ 5 "51999" "day_3" "Miércoles" []
      (create_user 0 "51999") (create_user 0 "51999") (by decide) rfl rfl rfl).1
      2 { id := 7, text := "q?", options := ["a", "b"] } (by decide) rfl rfl
  exact ⟨h.1, h.2.1, h.2.2.1⟩

/-- Check of `verify_webhook_behaviour` at concrete inputs: a successful
verification echoes the integer challenge, and a call with a missing mode
parameter raises HTTP 400. -/
theorem verify_webhook_check :
    verify_webhook (some "subscribe") (some "banquea_medical_bot_verify_token") (some "42") none
      = Except.ok 42 ∧
    verify_webhook none (some "banquea_medical_bot_verify_token") (some "42") none
      = Except.error 400 :=
  ⟨(verify_webhook_behaviour (some "subscribe") (some "banquea_medical_bot_verify_token")
      (some "42") none).2.2 "42" 42 rfl rfl rfl rfl (by decide),
   (verify_webhook_behaviour none (some "banquea_medical_bot_verify_token")
      (some "42") none).1 rfl⟩

end BanqueaBot
